import Mathlib

/-
Verification of janitor/chemistry.py (pyjanitor chemistry module).

Shallow embedding conventions:
* A pandas DataFrame is a list of rows, each row carrying its index label
  (an `Int`) and a record of the cells the functions read.  Column selection
  by name (`df[smiles_col]`, `df[mols_col]`) is modelled structurally: the
  record type exposes the selected column as a component and bundles every
  other column into an abstract payload type `ρ`, which the operations carry
  through unchanged.
* External rdkit / numpy collaborators (`Chem.MolFromSmiles`, the
  fingerprint generators, `DataStructs.ConvertToNumpyArray`, the descriptor
  functions) are abstract parameters of the embedded functions; molecule
  objects are an abstract type `Mol`, native fingerprint vectors an abstract
  type `FP`, numeric scalars an abstract type `γ`.
* Python exceptions are modelled with `Except PyError`; an early `raise` is
  the `Except.error` branch of an if/else.
-/

set_option autoImplicit false

namespace PyJanitorChemistry

/-- A Python exception relevant to this module. -/
inductive PyError where
  | valueError (msg : String)
  | nameError (msg : String)
  deriving Repr, DecidableEq

/-- Equality of `Except` results is decidable when both components are;
used to evaluate the embedded functions on concrete inputs. -/
instance {ε α : Type} [DecidableEq ε] [DecidableEq α] : DecidableEq (Except ε α) :=
  fun a b =>
    match a, b with
    | Except.error e, Except.error f =>
      if h : e = f then isTrue (by rw [h]) else
        isFalse (fun hc => h (by cases hc; rfl))
    | Except.error _, Except.ok _ => isFalse (fun hc => Except.noConfusion hc)
    | Except.ok _, Except.error _ => isFalse (fun hc => Except.noConfusion hc)
    | Except.ok x, Except.ok y =>
      if h : x = y then isTrue (by rw [h]) else
        isFalse (fun hc => h (by cases hc; rfl))

/-- A pandas DataFrame over a row-record type `α`: the rows in order, each
with its index label.  `df.index` and row count are derived views. -/
structure DataFrame (α : Type) where
  rows : List (Int × α)
  deriving Repr, DecidableEq

namespace DataFrame

/-- The row index of the table (`df.index`). -/
def index {α : Type} (df : DataFrame α) : List Int :=
  df.rows.map Prod.fst

/-- The number of rows (`len(df)`). -/
def nrows {α : Type} (df : DataFrame α) : Nat :=
  df.rows.length

end DataFrame

/-- Embedding of `df.reset_index(inplace=True, drop=True)`: renumber the row index
contiguously from zero, discarding the old labels. -/
def reset_index {α : Type} (df : DataFrame α) : DataFrame α :=
  ⟨df.rows.enum.map (fun p => ((p.1 : Int), p.2.2))⟩

/-- The `valid_progress` list of `smiles2mol`: `["notebook", "terminal", None]`. -/
def valid_progress : List (Option String) :=
  [some "notebook", some "terminal", none]

/-- Embedding of `smiles2mol(df, smiles_col, mols_col, drop_nulls, progressbar)` from
`src/janitor/chemistry.py`.

`MolFromSmiles` stands for `rdkit.Chem.MolFromSmiles` (external
collaborator), returning `none` exactly on an unparseable SMILES string.
Each input row is `(label, other-columns payload, smiles cell)`; the output
row gains the new mols cell.  The tqdm progress display is out of scope:
`progress_apply` assigns the same column as `apply`, so both branches of
the progressbar test build the same mols column. -/
def smiles2mol {ρ Mol : Type} (MolFromSmiles : String → Option Mol)
    (df : DataFrame (ρ × String)) (drop_nulls : Bool)
    (progressbar : Option String) :
    Except PyError (DataFrame (ρ × String × Option Mol)) :=
  if progressbar ∉ valid_progress then
    Except.error
      (PyError.valueError "progressbar kwarg must be one of [notebook, terminal, None]")
  else
    -- df[mols_col] = df[smiles_col].apply(lambda x: Chem.MolFromSmiles(x))
    let df1 : DataFrame (ρ × String × Option Mol) :=
      if progressbar = none then
        ⟨df.rows.map (fun r => (r.1, r.2.1, r.2.2, MolFromSmiles r.2.2))⟩
      else
        -- tqdm/tqdm_notebook registration only configures the display;
        -- progress_apply applies the same lambda as apply
        ⟨df.rows.map (fun r => (r.1, r.2.1, r.2.2, MolFromSmiles r.2.2))⟩
    -- if drop_nulls: df.dropna(subset=[mols_col], inplace=True)
    let df2 : DataFrame (ρ × String × Option Mol) :=
      if drop_nulls then ⟨df1.rows.filter (fun r => r.2.2.2.isSome)⟩ else df1
    -- df.reset_index(inplace=True, drop=True)  [unconditional]
    Except.ok (reset_index df2)


/-- Embedding of `np.vstack` over a list of 1-D arrays: raises on an empty list
("need at least one array to concatenate") and on arrays of differing
lengths; otherwise stacks them as the rows of a matrix. -/
def vstack {γ : Type} : List (List γ) → Except PyError (List (List γ))
  | [] => Except.error (PyError.valueError "need at least one array to concatenate")
  | x :: xs =>
    if xs.all (fun r => r.length = x.length) then Except.ok (x :: xs)
    else Except.error (PyError.valueError "all the input array dimensions must match")

/-- Model of `pd.DataFrame(matrix)`: a feature table with anonymous positional column
labels `0..w-1` (`w` the common row width) and default index `0..n-1`. -/
structure MatrixFrame (γ : Type) where
  index : List Int
  cols : List Nat
  data : List (List γ)
  deriving Repr, DecidableEq

/-- Build the `pd.DataFrame(np_fps)` value from a stacked matrix. -/
def dataFrameOfMatrix {γ : Type} (m : List (List γ)) : MatrixFrame γ :=
  ⟨(List.range m.length).map Int.ofNat,
   List.range (match m with | [] => 0 | x :: _ => x.length),
   m⟩

/-- Embedding of `fpdf.index = df.index`: overwrite the index labels of a feature table. -/
def setIndex {α γ : Type} (f : MatrixFrame γ) (df : DataFrame α) : MatrixFrame γ :=
  ⟨df.index, f.cols, f.data⟩

/-- Embedding of `morgan_fingerprint(df, mols_col, radius, nbits, kind)` from
`src/janitor/chemistry.py`.

`GetMorganFingerprintAsBitVect` / `GetHashedMorganFingerprint` stand for the
rdkit generators (external collaborators) producing a native vector `FP`;
`ConvertToNumpyArray` stands for `DataStructs.ConvertToNumpyArray` writing a
native vector out as a dense 1-D numeric array.  Each input row is
`(label, other-columns payload, mol cell)`. -/
def morgan_fingerprint {ρ Mol FP γ : Type}
    (GetMorganFingerprintAsBitVect : Mol → Nat → Nat → FP)
    (GetHashedMorganFingerprint : Mol → Nat → Nat → FP)
    (ConvertToNumpyArray : FP → List γ)
    (df : DataFrame (ρ × Mol)) (radius : Nat) (nbits : Nat) (kind : String) :
    Except PyError (MatrixFrame γ) :=
  let acceptable_kinds := ["counts", "bits"]
  if kind ∉ acceptable_kinds then
    Except.error (PyError.valueError "kind must be one of [counts, bits]")
  else
    let fps : List FP :=
      if kind = "bits" then
        df.rows.map (fun r => GetMorganFingerprintAsBitVect r.2.2 radius nbits)
      else if kind = "counts" then
        df.rows.map (fun r => GetHashedMorganFingerprint r.2.2 radius nbits)
      else
        []  -- unreachable: kind was checked against acceptable_kinds above
    let np_fps := fps.map ConvertToNumpyArray
    match vstack np_fps with
    | Except.error e => Except.error e
    | Except.ok m => Except.ok (setIndex (dataFrameOfMatrix m) df)

/-- Embedding of `maccs_keys_fingerprint(df, mols_col)` from `src/janitor/chemistry.py`.
`GetMACCSKeysFingerprint` stands for the rdkit generator (external
collaborator, fixed library-defined length). -/
def maccs_keys_fingerprint {ρ Mol FP γ : Type}
    (GetMACCSKeysFingerprint : Mol → FP)
    (ConvertToNumpyArray : FP → List γ)
    (df : DataFrame (ρ × Mol)) :
    Except PyError (MatrixFrame γ) :=
  let maccs := df.rows.map (fun r => GetMACCSKeysFingerprint r.2.2)
  let np_maccs := maccs.map ConvertToNumpyArray
  match vstack np_maccs with
  | Except.error e => Except.error e
  | Except.ok m => Except.ok (setIndex (dataFrameOfMatrix m) df)

/-- The character set of the literal `"Calc"`, as used by
`f.__name__.strip("Calc")`. -/
def calc_chars : List Char := "Calc".data

/-- Python `str.strip(chars)`: remove every leading and every trailing
character that belongs to the character set (NOT removal of a literal
prefix or suffix). -/
def pyStrip (chars : List Char) (s : String) : String :=
  ⟨((s.data.dropWhile (fun c => c ∈ chars)).reverse.dropWhile
      (fun c => c ∈ chars)).reverse⟩

/-- The `__name__`s of the 39 functions in the `descriptors` list of
`molecular_descriptors`, in source order. -/
def descriptor_names : List String :=
  ["CalcChi0n", "CalcChi0v", "CalcChi1n", "CalcChi1v", "CalcChi2n",
   "CalcChi2v", "CalcChi3n", "CalcChi3v", "CalcChi4n", "CalcChi4v",
   "CalcExactMolWt", "CalcFractionCSP3", "CalcHallKierAlpha", "CalcKappa1",
   "CalcKappa2", "CalcKappa3", "CalcLabuteASA",
   "CalcNumAliphaticCarbocycles", "CalcNumAliphaticHeterocycles",
   "CalcNumAliphaticRings", "CalcNumAmideBonds",
   "CalcNumAromaticCarbocycles", "CalcNumAromaticHeterocycles",
   "CalcNumAromaticRings", "CalcNumAtomStereoCenters",
   "CalcNumBridgeheadAtoms", "CalcNumHBA", "CalcNumHBD",
   "CalcNumHeteroatoms", "CalcNumHeterocycles", "CalcNumLipinskiHBA",
   "CalcNumLipinskiHBD", "CalcNumRings", "CalcNumSaturatedCarbocycles",
   "CalcNumSaturatedHeterocycles", "CalcNumSaturatedRings",
   "CalcNumSpiroAtoms", "CalcNumUnspecifiedAtomStereoCenters", "CalcTPSA"]

/-- Python dict insertion: overwrite the value in place when the key is
present, else append the pair at the end (insertion order is kept). -/
def dictInsert {β : Type} (d : List (String × β)) (k : String) (v : β) :
    List (String × β) :=
  if d.any (fun p => p.1 = k) then
    d.map (fun p => if p.1 = k then (k, v) else p)
  else d ++ [(k, v)]

/-- A Python dict built from pairs in order (a dict comprehension). -/
def dictOfList {β : Type} (l : List (String × β)) : List (String × β) :=
  l.foldl (fun d p => dictInsert d p.1 p.2) []

/-- Model of `pd.DataFrame(feats)` for a dict of named columns: a table whose columns
are the dict entries in insertion order, with default index `0..n-1` where
`n` is the common column length.  NOTE: `molecular_descriptors` never
assigns `df.index` to this table. -/
structure ColFrame (γ : Type) where
  index : List Int
  cols : List (String × List γ)
  deriving Repr, DecidableEq

/-- The number of rows of a dict-built table. -/
def ColFrame.nrows {γ : Type} (f : ColFrame γ) : Nat := f.index.length

/-- Build the `pd.DataFrame(feats)` value from a dict of columns. -/
def dataFrameOfDict {γ : Type} (d : List (String × List γ)) : ColFrame γ :=
  ⟨(List.range (match d with | [] => 0 | c :: _ => c.2.length)).map Int.ofNat,
   d⟩

/-- Embedding of `molecular_descriptors(df, mols_col)` from `src/janitor/chemistry.py`.

`descVal` stands for the 39 rdkit descriptor functions (external
collaborators), looked up by their `__name__`.  The body mirrors
the dict comprehension mapping `f.__name__.strip("Calc")` to `f` followed
by `feats[name] = [func(m) for m in df[mols_col]]` and
`return pd.DataFrame(feats)` — with no index assignment. -/
def molecular_descriptors {ρ Mol γ : Type} (descVal : String → Mol → γ)
    (df : DataFrame (ρ × Mol)) : ColFrame γ :=
  let descriptors :=
    dictOfList (descriptor_names.map (fun n => (pyStrip calc_chars n, descVal n)))
  -- feats is a dict keyed by the same (already distinct) names, in order
  let feats := descriptors.map (fun p => (p.1, df.rows.map (fun r => p.2 r.2.2)))
  dataFrameOfDict feats

/-- The column names the code actually produces. -/
def descriptor_column_names : List String :=
  descriptor_names.map (pyStrip calc_chars)

/-- A pandas object `smiles2mol` touches: the table before the call
(other columns and a smiles column) or after it (additionally the mols
column).  Python is dynamically typed; the sum tracks the column layout. -/
inductive PandasObj (ρ Mol : Type) where
  | strTable (df : DataFrame (ρ × String))
  | molTable (df : DataFrame (ρ × String × Option Mol))
  deriving Repr, DecidableEq

/-- A heap of pandas objects.  A reference (a position in the heap) models
Python object identity: two equal references are the same object. -/
def Heap (ρ Mol : Type) : Type := List (PandasObj ρ Mol)

/-- Dereference a heap reference. -/
def Heap.get {ρ Mol : Type} (h : Heap ρ Mol) (r : Nat) : Option (PandasObj ρ Mol) :=
  List.get? h r

/-- Overwrite the object a reference points to (in-place mutation). -/
def Heap.put {ρ Mol : Type} (h : Heap ρ Mol) (r : Nat) (v : PandasObj ρ Mol) :
    Heap ρ Mol :=
  List.set h r v

/-- The method call `df.smiles2mol(...)` as seen through the heap: it
receives a reference to the table object, performs the conversion, stores
the converted table back into THAT object (the column assignment, `dropna`
and `reset_index` all use `inplace=True`), and returns the same
reference (`return df`). -/
def smiles2mol_method {ρ Mol : Type} (MolFromSmiles : String → Option Mol)
    (heap : Heap ρ Mol) (ref : Nat) (drop_nulls : Bool)
    (progressbar : Option String) :
    Except PyError (Heap ρ Mol × Nat) :=
  match Heap.get heap ref with
  | some (PandasObj.strTable df) =>
    match smiles2mol MolFromSmiles df drop_nulls progressbar with
    | Except.error e => Except.error e
    | Except.ok out => Except.ok (Heap.put heap ref (PandasObj.molTable out), ref)
  | _ => Except.error (PyError.nameError "df")

/-- A two-row mol table carrying index labels 5 and 7 (for example, the
survivors of an earlier row filter).  Cells are irrelevant to the index
claims, so the payload and mol types are `Unit`. -/
def dfLabels57 : DataFrame (Unit × Unit) :=
  ⟨[(5, ((), ())), (7, ((), ()))]⟩

/-- A two-row smiles table with the same index labels 5 and 7. -/
def dfLabels57s : DataFrame (Unit × String) :=
  ⟨[(5, ((), "C")), (7, ((), "C"))]⟩

/-- The spec example input: a table whose smiles column is
`["CCO", "not-a-smiles", "c1ccccc1"]`, default index. -/
def dfSpecExample : DataFrame (Unit × String) :=
  ⟨[(0, ((), "CCO")), (1, ((), "not-a-smiles")), (2, ((), "c1ccccc1"))]⟩

/-- A toy stand-in for `Chem.MolFromSmiles` used in concrete witnesses:
parses every string except `"not-a-smiles"`, the parsed molecule being the
string itself. -/
def toyParse (s : String) : Option String :=
  if s = "not-a-smiles" then none else some s

section ListLemmas

/-- The index after a reset is the contiguous zero-based range. -/
theorem reset_index_index {α : Type} (df : DataFrame α) :
    (reset_index df).index = (List.range df.nrows).map Int.ofNat := by
  show (df.rows.enum.map (fun p => ((p.1 : Int), p.2.2))).map Prod.fst = _
  rw [List.map_map]
  have h : (Prod.fst ∘ fun p : Nat × (Int × α) => ((p.1 : Int), p.2.2)) =
      Int.ofNat ∘ Prod.fst := rfl
  rw [h, ← List.map_map, List.enum_map_fst]
  rfl

/-- Resetting the index keeps the row records, in order. -/
theorem reset_index_records {α : Type} (df : DataFrame α) :
    (reset_index df).rows.map Prod.snd = df.rows.map Prod.snd := by
  show (df.rows.enum.map (fun p => ((p.1 : Int), p.2.2))).map Prod.snd = _
  rw [List.map_map]
  have h : (Prod.snd ∘ fun p : Nat × (Int × α) => ((p.1 : Int), p.2.2)) =
      Prod.snd ∘ Prod.snd := rfl
  rw [h, ← List.map_map, List.enum_map_snd]

/-- Resetting the index keeps the row count. -/
theorem reset_index_nrows {α : Type} (df : DataFrame α) :
    (reset_index df).nrows = df.nrows := by
  show (df.rows.enum.map _).length = _
  rw [List.length_map, List.enum_length]
  rfl

/-- Filtering over a mapped list is mapping over a filtered list. -/
theorem filter_of_map {α β : Type} (f : α → β) (q : β → Bool) (l : List α) :
    (l.map f).filter q = (l.filter (fun a => q (f a))).map f := by
  induction l with
  | nil => rfl
  | cons a l ih => cases h : q (f a) <;> simp [List.filter_cons, h, ih]

/-- The rows kept by an isSome filter and the rows dropped as isNone
partition the list. -/
theorem length_filter_isSome_add {α β : Type} (f : α → Option β) (l : List α) :
    (l.filter (fun a => (f a).isSome)).length +
      (l.filter (fun a => (f a).isNone)).length = l.length := by
  induction l with
  | nil => rfl
  | cons a l ih =>
    cases h : f a <;> simp [List.filter_cons, h, List.length_cons] <;> omega

end ListLemmas

/-- Evaluation of `smiles2mol` on a recognized progressbar value: both
progressbar branches build the same mols column, then the null rows are
optionally dropped and the index is reset. -/
theorem smiles2mol_ok {ρ Mol : Type} (MolFromSmiles : String → Option Mol)
    (df : DataFrame (ρ × String)) (drop_nulls : Bool) (progressbar : Option String)
    (hpb : progressbar ∈ valid_progress) :
    smiles2mol MolFromSmiles df drop_nulls progressbar =
      Except.ok (reset_index (if drop_nulls then
          ⟨(df.rows.map (fun r => (r.1, r.2.1, r.2.2, MolFromSmiles r.2.2))).filter
            (fun r => r.2.2.2.isSome)⟩
        else ⟨df.rows.map (fun r => (r.1, r.2.1, r.2.2, MolFromSmiles r.2.2))⟩)) := by
  unfold smiles2mol
  rw [if_neg (not_not_intro hpb), ite_self]

/-- C2: for every progress-mode value in the recognized set
(None, "terminal", "notebook") `smiles2mol` succeeds and returns a table;
for every value outside that set it raises the invalid-argument
`ValueError`, whose value does not depend on the table (the check runs
before any row is read or written). -/
theorem smiles2mol_progressbar_validation {ρ Mol : Type}
    (MolFromSmiles : String → Option Mol) (df : DataFrame (ρ × String))
    (drop_nulls : Bool) (progressbar : Option String) :
    (progressbar ∈ valid_progress →
      ∃ out, smiles2mol MolFromSmiles df drop_nulls progressbar = Except.ok out) ∧
    (progressbar ∉ valid_progress →
      smiles2mol MolFromSmiles df drop_nulls progressbar =
        Except.error (PyError.valueError
          "progressbar kwarg must be one of [notebook, terminal, None]")) := by
  constructor
  · intro hpb
    exact ⟨_, smiles2mol_ok MolFromSmiles df drop_nulls progressbar hpb⟩
  · intro hpb
    unfold smiles2mol
    rw [if_pos hpb]

/-- C2 witness: at the concrete inputs, `"terminal"` succeeds and the
unrecognized string `"oops"` raises the invalid-argument `ValueError`. -/
theorem smiles2mol_progressbar_validation_witness :
    (∃ out, smiles2mol toyParse dfSpecExample true (some "terminal") =
      Except.ok out) ∧
    smiles2mol toyParse dfSpecExample true (some "oops") =
      Except.error (PyError.valueError
        "progressbar kwarg must be one of [notebook, terminal, None]") :=
  ⟨(smiles2mol_progressbar_validation toyParse dfSpecExample true
      (some "terminal")).1 (by decide),
   (smiles2mol_progressbar_validation toyParse dfSpecExample true
      (some "oops")).2 (by decide)⟩

/-- C3: with `drop_nulls=True`, the output has exactly `N - K` rows (`K` the
number of rows whose SMILES fails to parse), a contiguous zero-based index,
and every kept row holds a non-null mol. -/
theorem smiles2mol_drop_nulls_shape {ρ Mol : Type}
    (MolFromSmiles : String → Option Mol) (df : DataFrame (ρ × String))
    (progressbar : Option String) (hpb : progressbar ∈ valid_progress) :
    ∃ out, smiles2mol MolFromSmiles df true progressbar = Except.ok out ∧
      out.nrows = df.nrows -
        (df.rows.filter (fun r => (MolFromSmiles r.2.2).isNone)).length ∧
      out.index = (List.range out.nrows).map Int.ofNat ∧
      ∀ r ∈ out.rows, r.2.2.2.isSome := by
  refine ⟨_, smiles2mol_ok MolFromSmiles df true progressbar hpb, ?_, ?_, ?_⟩
  · show (reset_index (⟨(df.rows.map _).filter _⟩ : DataFrame _)).nrows = _
    rw [reset_index_nrows]
    show ((df.rows.map (fun r => (r.1, r.2.1, r.2.2, MolFromSmiles r.2.2))).filter
      (fun r => r.2.2.2.isSome)).length = _
    rw [filter_of_map, List.length_map]
    have hpart := length_filter_isSome_add (fun r : Int × ρ × String =>
      MolFromSmiles r.2.2) df.rows
    show (df.rows.filter (fun a => (MolFromSmiles a.2.2).isSome)).length = _
    unfold DataFrame.nrows
    omega
  · rw [reset_index_index, reset_index_nrows]
  · intro r hr
    have h2 : r.2 ∈ (reset_index (⟨(df.rows.map (fun r =>
        (r.1, r.2.1, r.2.2, MolFromSmiles r.2.2))).filter
        (fun r => r.2.2.2.isSome)⟩ : DataFrame _)).rows.map Prod.snd :=
      List.mem_map_of_mem Prod.snd hr
    rw [reset_index_records] at h2
    obtain ⟨s, hs, hsr⟩ := List.mem_map.mp h2
    have hkept := (List.mem_filter.mp hs).2
    rw [show r.2.2.2 = s.2.2.2 from by rw [← hsr]]
    simpa using hkept

/-- C3 witness: the spec example `["CCO", "not-a-smiles", "c1ccccc1"]` with
discard enabled keeps rows 0 and 2, renumbered to 0 and 1, each holding a
parsed (non-null) mol; the general theorem applies to it. -/
theorem smiles2mol_drop_nulls_shape_witness :
    smiles2mol toyParse dfSpecExample true none =
      Except.ok ⟨[(0, ((), "CCO", some "CCO")),
                  (1, ((), "c1ccccc1", some "c1ccccc1"))]⟩ ∧
    (∃ out, smiles2mol toyParse dfSpecExample true none = Except.ok out ∧
      out.nrows = dfSpecExample.nrows -
        (dfSpecExample.rows.filter (fun r => (toyParse r.2.2).isNone)).length ∧
      out.index = (List.range out.nrows).map Int.ofNat ∧
      ∀ r ∈ out.rows, r.2.2.2.isSome) :=
  ⟨by decide, smiles2mol_drop_nulls_shape toyParse dfSpecExample none (by decide)⟩

/-- C7: with `drop_nulls=False`, the output has exactly the N rows of the input
and, row for row, keeps the payload and SMILES and holds
`MolFromSmiles` of the SMILES as the mols cell — `none` exactly on the
unparseable rows. -/
theorem smiles2mol_keep_nulls_shape {ρ Mol : Type}
    (MolFromSmiles : String → Option Mol) (df : DataFrame (ρ × String))
    (progressbar : Option String) (hpb : progressbar ∈ valid_progress) :
    ∃ out, smiles2mol MolFromSmiles df false progressbar = Except.ok out ∧
      out.nrows = df.nrows ∧
      out.rows.map Prod.snd =
        df.rows.map (fun r => (r.2.1, r.2.2, MolFromSmiles r.2.2)) := by
  refine ⟨_, smiles2mol_ok MolFromSmiles df false progressbar hpb, ?_, ?_⟩
  · show (reset_index (⟨df.rows.map _⟩ : DataFrame _)).nrows = _
    rw [reset_index_nrows]
    show (df.rows.map _).length = _
    rw [List.length_map]
    rfl
  · show (reset_index (⟨df.rows.map _⟩ : DataFrame _)).rows.map Prod.snd = _
    rw [reset_index_records]
    show (df.rows.map _).map Prod.snd = _
    rw [List.map_map]
    rfl

/-- C7 witness: the spec example with discard disabled keeps all three rows;
the unparseable middle row holds `none`; the general theorem applies. -/
theorem smiles2mol_keep_nulls_shape_witness :
    smiles2mol toyParse dfSpecExample false none =
      Except.ok ⟨[(0, ((), "CCO", some "CCO")),
                  (1, ((), "not-a-smiles", none)),
                  (2, ((), "c1ccccc1", some "c1ccccc1"))]⟩ ∧
    (∃ out, smiles2mol toyParse dfSpecExample false none = Except.ok out ∧
      out.nrows = dfSpecExample.nrows ∧
      out.rows.map Prod.snd =
        dfSpecExample.rows.map (fun r => (r.2.1, r.2.2, toyParse r.2.2))) :=
  ⟨by decide, smiles2mol_keep_nulls_shape toyParse dfSpecExample none (by decide)⟩

/-- C8: the method call mutates the table object it receives — on success it
stores the converted table back into the same heap cell — and the reference
it returns is the very reference it was called on. -/
theorem smiles2mol_mutates_in_place {ρ Mol : Type}
    (MolFromSmiles : String → Option Mol) (heap : Heap ρ Mol) (ref : Nat)
    (df : DataFrame (ρ × String)) (drop_nulls : Bool)
    (progressbar : Option String) (out : DataFrame (ρ × String × Option Mol))
    (href : Heap.get heap ref = some (PandasObj.strTable df))
    (hok : smiles2mol MolFromSmiles df drop_nulls progressbar = Except.ok out) :
    smiles2mol_method MolFromSmiles heap ref drop_nulls progressbar =
      Except.ok (Heap.put heap ref (PandasObj.molTable out), ref) ∧
    Heap.get (Heap.put heap ref (PandasObj.molTable out)) ref =
      some (PandasObj.molTable out) := by
  constructor
  · unfold smiles2mol_method
    rw [href]
    change (match smiles2mol MolFromSmiles df drop_nulls progressbar with
      | Except.error e => Except.error e
      | Except.ok out => Except.ok (Heap.put heap ref (PandasObj.molTable out), ref)) = _
    rw [hok]
  · have hlt : ref < heap.length := by
      by_contra hge
      have hnone : Heap.get heap ref = none :=
        List.get?_eq_none.mpr (le_of_not_lt hge)
      rw [hnone] at href
      exact Option.noConfusion href
    show List.get? (List.set heap ref _) ref = _
    rw [List.get?_set_eq_of_lt _ (by simpa using hlt)]

/-- C8 witness: on a one-object heap the method overwrites cell 0 with the
converted table and returns reference 0. -/
theorem smiles2mol_mutates_in_place_witness :
    smiles2mol_method toyParse
        ([PandasObj.strTable dfSpecExample] : Heap Unit String) 0 true none =
      Except.ok (Heap.put ([PandasObj.strTable dfSpecExample] : Heap Unit String) 0
        (PandasObj.molTable ⟨[(0, ((), "CCO", some "CCO")),
                              (1, ((), "c1ccccc1", some "c1ccccc1"))]⟩), 0) ∧
    Heap.get (Heap.put ([PandasObj.strTable dfSpecExample] : Heap Unit String) 0
        (PandasObj.molTable ⟨[(0, ((), "CCO", some "CCO")),
                              (1, ((), "c1ccccc1", some "c1ccccc1"))]⟩)) 0 =
      some (PandasObj.molTable ⟨[(0, ((), "CCO", some "CCO")),
                                 (1, ((), "c1ccccc1", some "c1ccccc1"))]⟩) :=
  smiles2mol_mutates_in_place toyParse _ 0 dfSpecExample true none _
    (by decide) (by decide)

/-- C1 (code bug): index alignment is NOT preserved end-to-end.  On a table
whose index labels are 5 and 7, `molecular_descriptors` returns the fresh
default index `[0, 1]` (it never assigns `df.index` to its result, although
its own docstring promises that a `join` works "because the indices are
preserved"), and `smiles2mol` with discard disabled also renumbers the
index to `[0, 1]` (its `reset_index` call is unconditional). -/
theorem index_alignment_broken :
    dfLabels57.index = [5, 7] ∧
    (molecular_descriptors (fun _ _ => (0 : Nat)) dfLabels57).index = [0, 1] ∧
    dfLabels57s.index = [5, 7] ∧
    smiles2mol (fun s => some s) dfLabels57s false none =
      Except.ok ⟨[(0, ((), "C", some "C")), (1, ((), "C", some "C"))]⟩ :=
  ⟨by decide, by decide, by decide, by decide⟩

/-- Inserting a key that is not yet in a dict appends the pair. -/
theorem dictInsert_not_mem {β : Type} (d : List (String × β)) (k : String) (v : β)
    (h : k ∉ d.map Prod.fst) : dictInsert d k v = d ++ [(k, v)] := by
  have hany : (d.any fun p => p.1 = k) = false := by
    rw [List.any_eq_false]
    intro p hp
    simp only [decide_eq_true_eq]
    intro hk
    exact h (hk ▸ List.mem_map_of_mem Prod.fst hp)
  simp [dictInsert, hany]

/-- Folding dict insertions of pairwise distinct, fresh keys just appends
the pairs in order. -/
theorem foldl_dictInsert_eq_append {β : Type} (l : List (String × β)) :
    ∀ acc : List (String × β), (l.map Prod.fst).Nodup →
      (∀ k ∈ l.map Prod.fst, k ∉ acc.map Prod.fst) →
      List.foldl (fun d p => dictInsert d p.1 p.2) acc l = acc ++ l := by
  induction l with
  | nil => intro acc _ _; simp
  | cons p l ih =>
    intro acc hnd hdisj
    have hnd' : (p.1 :: l.map Prod.fst).Nodup := by simpa using hnd
    rw [List.foldl_cons, dictInsert_not_mem acc p.1 p.2 (hdisj p.1 (by simp))]
    rw [ih (acc ++ [(p.1, p.2)]) (List.nodup_cons.mp hnd').2 ?_]
    · simp
    · intro k hk
      rw [List.map_append, List.mem_append]
      rintro (hka | hkp)
      · exact hdisj k (by simp [hk]) hka
      · have hk1 : k = p.1 := by simpa using hkp
        exact (List.nodup_cons.mp hnd').1 (hk1 ▸ hk)

/-- A dict built from pairs with pairwise distinct keys is those pairs in
order. -/
theorem dictOfList_eq_self {β : Type} (l : List (String × β))
    (h : (l.map Prod.fst).Nodup) : dictOfList l = l := by
  have hgo := foldl_dictInsert_eq_append l [] h (by simp)
  simpa [dictOfList] using hgo

/-- The 39 stripped descriptor column names are pairwise distinct. -/
theorem descriptor_column_names_nodup : descriptor_column_names.Nodup := by
  decide

/-- Closed form of `molecular_descriptors`: one column per descriptor, named
by the stripped function name, holding that descriptor of every mol in row
order; the index is the fresh default one. -/
theorem molecular_descriptors_eq {ρ Mol γ : Type} (descVal : String → Mol → γ)
    (df : DataFrame (ρ × Mol)) :
    molecular_descriptors descVal df =
      dataFrameOfDict (descriptor_names.map (fun n =>
        (pyStrip calc_chars n, df.rows.map (fun r => descVal n r.2.2)))) := by
  have hnd : ((descriptor_names.map
      (fun n => (pyStrip calc_chars n, descVal n))).map Prod.fst).Nodup := by
    rw [List.map_map]
    exact descriptor_column_names_nodup
  unfold molecular_descriptors
  rw [dictOfList_eq_self _ hnd]
  show dataFrameOfDict ((descriptor_names.map (fun n =>
      (pyStrip calc_chars n, descVal n))).map (fun p =>
      (p.1, df.rows.map (fun r => p.2 r.2.2)))) = _
  rw [List.map_map]
  rfl

/-- The number of rows of a dict-built table is the length of its first
column (zero when there is none). -/
theorem dataFrameOfDict_nrows {γ : Type} (d : List (String × List γ)) :
    (dataFrameOfDict d).nrows =
      (match d with | [] => 0 | c :: _ => c.2.length) := by
  simp [dataFrameOfDict, ColFrame.nrows]

/-- C5: `molecular_descriptors` returns a table with exactly the fixed 39
descriptor-name columns — one per listed descriptor, in order, nothing
else — and exactly one row per input mol (every column has one entry per
input row). -/
theorem molecular_descriptors_shape {ρ Mol γ : Type}
    (descVal : String → Mol → γ) (df : DataFrame (ρ × Mol)) :
    (molecular_descriptors descVal df).cols.map Prod.fst =
      descriptor_column_names ∧
    descriptor_column_names.length = 39 ∧
    (molecular_descriptors descVal df).nrows = df.nrows ∧
    ∀ c ∈ (molecular_descriptors descVal df).cols, c.2.length = df.nrows := by
  refine ⟨?_, by decide, ?_, ?_⟩
  · rw [molecular_descriptors_eq]
    show (descriptor_names.map (fun n =>
        (pyStrip calc_chars n, df.rows.map (fun r => descVal n r.2.2)))).map
        Prod.fst = descriptor_column_names
    rw [List.map_map]
    rfl
  · rw [molecular_descriptors_eq, dataFrameOfDict_nrows]
    show (df.rows.map (fun r => descVal "CalcChi0n" r.2.2)).length = df.nrows
    rw [List.length_map]
    rfl
  · intro c hc
    rw [molecular_descriptors_eq] at hc
    obtain ⟨n, hn, rfl⟩ := List.mem_map.mp hc
    show (df.rows.map _).length = _
    rw [List.length_map]
    rfl

/-- C5 witness: the shape theorem applied to a concrete two-row mol table
and a concrete descriptor valuation. -/
theorem molecular_descriptors_shape_witness :
    (molecular_descriptors (fun _ (_ : Unit) => (0 : Nat)) dfLabels57).cols.map
      Prod.fst = descriptor_column_names ∧
    descriptor_column_names.length = 39 ∧
    (molecular_descriptors (fun _ (_ : Unit) => (0 : Nat)) dfLabels57).nrows =
      dfLabels57.nrows ∧
    ∀ c ∈ (molecular_descriptors (fun _ (_ : Unit) => (0 : Nat)) dfLabels57).cols,
      c.2.length = dfLabels57.nrows :=
  molecular_descriptors_shape (fun _ _ => (0 : Nat)) dfLabels57

/-- The column names `molecular_descriptors` produces are the stripped
descriptor names. -/
theorem molecular_descriptors_cols_fst {ρ Mol γ : Type}
    (descVal : String → Mol → γ) (df : DataFrame (ρ × Mol)) :
    (molecular_descriptors descVal df).cols.map Prod.fst =
      descriptor_column_names := by
  rw [molecular_descriptors_eq]
  show (descriptor_names.map (fun n =>
      (pyStrip calc_chars n, df.rows.map (fun r => descVal n r.2.2)))).map
      Prod.fst = descriptor_column_names
  rw [List.map_map]
  rfl

/-- C9: each output column name is the rdkit function name with every
leading and trailing character among C, a, l, c removed (Python
`str.strip` set semantics, not literal-prefix removal): `CalcChi0n` yields
`"hi0n"` rather than `"Chi0n"` (and `CalcHallKierAlpha` yields
`"HallKierAlph"`), while names such as `"FractionCSP3"` and `"ExactMolWt"`
keep their documented form; the resulting 39 names are pairwise
distinct. -/
theorem molecular_descriptors_column_naming {ρ Mol γ : Type}
    (descVal : String → Mol → γ) (df : DataFrame (ρ × Mol)) :
    (molecular_descriptors descVal df).cols.map Prod.fst =
      ["hi0n", "hi0v", "hi1n", "hi1v", "hi2n", "hi2v", "hi3n", "hi3v",
       "hi4n", "hi4v", "ExactMolWt", "FractionCSP3", "HallKierAlph",
       "Kappa1", "Kappa2", "Kappa3", "LabuteASA",
       "NumAliphaticCarbocycles", "NumAliphaticHeterocycles",
       "NumAliphaticRings", "NumAmideBonds", "NumAromaticCarbocycles",
       "NumAromaticHeterocycles", "NumAromaticRings",
       "NumAtomStereoCenters", "NumBridgeheadAtoms", "NumHBA", "NumHBD",
       "NumHeteroatoms", "NumHeterocycles", "NumLipinskiHBA",
       "NumLipinskiHBD", "NumRings", "NumSaturatedCarbocycles",
       "NumSaturatedHeterocycles", "NumSaturatedRings", "NumSpiroAtoms",
       "NumUnspecifiedAtomStereoCenters", "TPSA"] ∧
    ((molecular_descriptors descVal df).cols.map Prod.fst).Nodup ∧
    "Chi0n" ∉ (molecular_descriptors descVal df).cols.map Prod.fst ∧
    "FractionCSP3" ∈ (molecular_descriptors descVal df).cols.map Prod.fst ∧
    "ExactMolWt" ∈ (molecular_descriptors descVal df).cols.map Prod.fst := by
  rw [molecular_descriptors_cols_fst]
  exact ⟨by decide, descriptor_column_names_nodup, by decide, by decide,
    by decide⟩

/-- C9 witness: the naming theorem applied to a concrete table and
descriptor valuation. -/
theorem molecular_descriptors_column_naming_witness :
    (molecular_descriptors (fun _ (_ : String) => (0 : Nat))
        dfSpecExample).cols.map Prod.fst =
      ["hi0n", "hi0v", "hi1n", "hi1v", "hi2n", "hi2v", "hi3n", "hi3v",
       "hi4n", "hi4v", "ExactMolWt", "FractionCSP3", "HallKierAlph",
       "Kappa1", "Kappa2", "Kappa3", "LabuteASA",
       "NumAliphaticCarbocycles", "NumAliphaticHeterocycles",
       "NumAliphaticRings", "NumAmideBonds", "NumAromaticCarbocycles",
       "NumAromaticHeterocycles", "NumAromaticRings",
       "NumAtomStereoCenters", "NumBridgeheadAtoms", "NumHBA", "NumHBD",
       "NumHeteroatoms", "NumHeterocycles", "NumLipinskiHBA",
       "NumLipinskiHBD", "NumRings", "NumSaturatedCarbocycles",
       "NumSaturatedHeterocycles", "NumSaturatedRings", "NumSpiroAtoms",
       "NumUnspecifiedAtomStereoCenters", "TPSA"] ∧
    ((molecular_descriptors (fun _ (_ : String) => (0 : Nat))
        dfSpecExample).cols.map Prod.fst).Nodup ∧
    "Chi0n" ∉ (molecular_descriptors (fun _ (_ : String) => (0 : Nat))
        dfSpecExample).cols.map Prod.fst ∧
    "FractionCSP3" ∈ (molecular_descriptors (fun _ (_ : String) => (0 : Nat))
        dfSpecExample).cols.map Prod.fst ∧
    "ExactMolWt" ∈ (molecular_descriptors (fun _ (_ : String) => (0 : Nat))
        dfSpecExample).cols.map Prod.fst :=
  molecular_descriptors_column_naming (fun _ _ => (0 : Nat)) dfSpecExample

/-- A stack of same-length arrays passes `np.vstack` unchanged. -/
theorem vstack_of_const_length {γ : Type} (l : List (List γ)) (n : Nat)
    (hne : l ≠ []) (hlen : ∀ x ∈ l, x.length = n) : vstack l = Except.ok l := by
  cases l with
  | nil => exact absurd rfl hne
  | cons y ys =>
    have hall : (ys.all fun r => r.length = y.length) = true := by
      rw [List.all_eq_true]
      intro r hr
      simp only [decide_eq_true_eq]
      rw [hlen r (List.mem_cons_of_mem y hr), hlen y (List.mem_cons_self y ys)]
    simp [vstack, hall]

/-- Evaluation of `morgan_fingerprint` at kind `"counts"`. -/
theorem morgan_eval_counts {ρ Mol FP γ : Type}
    (GetMorganFingerprintAsBitVect GetHashedMorganFingerprint :
      Mol → Nat → Nat → FP)
    (ConvertToNumpyArray : FP → List γ) (df : DataFrame (ρ × Mol))
    (radius nbits : Nat) :
    morgan_fingerprint GetMorganFingerprintAsBitVect GetHashedMorganFingerprint
        ConvertToNumpyArray df radius nbits "counts" =
      (match vstack ((df.rows.map (fun r =>
          GetHashedMorganFingerprint r.2.2 radius nbits)).map
          ConvertToNumpyArray) with
        | Except.error e => Except.error e
        | Except.ok m => Except.ok (setIndex (dataFrameOfMatrix m) df)) := rfl

/-- Evaluation of `morgan_fingerprint` at kind `"bits"`. -/
theorem morgan_eval_bits {ρ Mol FP γ : Type}
    (GetMorganFingerprintAsBitVect GetHashedMorganFingerprint :
      Mol → Nat → Nat → FP)
    (ConvertToNumpyArray : FP → List γ) (df : DataFrame (ρ × Mol))
    (radius nbits : Nat) :
    morgan_fingerprint GetMorganFingerprintAsBitVect GetHashedMorganFingerprint
        ConvertToNumpyArray df radius nbits "bits" =
      (match vstack ((df.rows.map (fun r =>
          GetMorganFingerprintAsBitVect r.2.2 radius nbits)).map
          ConvertToNumpyArray) with
        | Except.error e => Except.error e
        | Except.ok m => Except.ok (setIndex (dataFrameOfMatrix m) df)) := rfl

/-- Stacking one converted fingerprint per row of a nonempty table yields a
feature table aligned with the input and `nbits` wide. -/
theorem morgan_stacked_shape {ρ Mol FP γ : Type}
    (f : Mol → Nat → Nat → FP) (ConvertToNumpyArray : FP → List γ)
    (df : DataFrame (ρ × Mol)) (radius nbits : Nat)
    (hne : df.rows ≠ [])
    (hf : ∀ m, (ConvertToNumpyArray (f m radius nbits)).length = nbits) :
    ∃ out, (match vstack ((df.rows.map (fun r => f r.2.2 radius nbits)).map
        ConvertToNumpyArray) with
      | Except.error e => Except.error e
      | Except.ok m => Except.ok (setIndex (dataFrameOfMatrix m) df)) =
        Except.ok out ∧
      out.index = df.index ∧ out.data.length = df.nrows ∧
      out.cols.length = nbits := by
  have harrs_ne : (df.rows.map (fun r => f r.2.2 radius nbits)).map
      ConvertToNumpyArray ≠ [] := by
    intro h0
    exact hne (List.map_eq_nil.mp (List.map_eq_nil.mp h0))
  have hall : ∀ x ∈ (df.rows.map (fun r => f r.2.2 radius nbits)).map
      ConvertToNumpyArray, x.length = nbits := by
    intro x hx
    rw [List.map_map] at hx
    obtain ⟨r, hr, rfl⟩ := List.mem_map.mp hx
    exact hf r.2.2
  rw [vstack_of_const_length _ nbits harrs_ne hall]
  refine ⟨_, rfl, rfl, ?_, ?_⟩
  · show ((df.rows.map _).map _).length = df.nrows
    rw [List.length_map, List.length_map]
    rfl
  · cases hy : (df.rows.map (fun r => f r.2.2 radius nbits)).map
        ConvertToNumpyArray with
    | nil => exact absurd hy harrs_ne
    | cons y ys =>
      show (List.range y.length).length = nbits
      rw [List.length_range]
      exact hall y (by rw [hy]; exact List.mem_cons_self y ys)

/-- C4 counterexample: on the empty table `morgan_fingerprint` raises the
`np.vstack` error instead of returning a (trivially aligned) empty feature
table, so the claim fails at `N = 0`. -/
theorem morgan_fingerprint_empty_counterexample :
    morgan_fingerprint (fun (_ : Unit) (_ _ : Nat) => ([] : List Nat))
        (fun _ _ _ => []) (fun a => a) (⟨[]⟩ : DataFrame (Unit × Unit))
        3 8 "counts" =
      Except.error (PyError.valueError "need at least one array to concatenate") := by
  decide

/-- C4 (amended): for every input table with AT LEAST ONE ROW and every
valid kind, `morgan_fingerprint` returns a table whose row count and row
index match those of the input and whose column count equals the requested
bit-length, given the library contract that converted fingerprints have
length `nbits`. -/
theorem morgan_fingerprint_shape {ρ Mol FP γ : Type}
    (GetMorganFingerprintAsBitVect GetHashedMorganFingerprint :
      Mol → Nat → Nat → FP)
    (ConvertToNumpyArray : FP → List γ) (df : DataFrame (ρ × Mol))
    (radius nbits : Nat) (kind : String)
    (hne : df.rows ≠ []) (hkind : kind ∈ ["counts", "bits"])
    (hbit : ∀ m, (ConvertToNumpyArray
      (GetMorganFingerprintAsBitVect m radius nbits)).length = nbits)
    (hhash : ∀ m, (ConvertToNumpyArray
      (GetHashedMorganFingerprint m radius nbits)).length = nbits) :
    ∃ out, morgan_fingerprint GetMorganFingerprintAsBitVect
        GetHashedMorganFingerprint ConvertToNumpyArray df radius nbits kind =
        Except.ok out ∧
      out.index = df.index ∧ out.data.length = df.nrows ∧
      out.cols.length = nbits := by
  have hkinds : kind = "counts" ∨ kind = "bits" := by simpa using hkind
  rcases hkinds with rfl | rfl
  · rw [morgan_eval_counts]
    exact morgan_stacked_shape GetHashedMorganFingerprint ConvertToNumpyArray
      df radius nbits hne hhash
  · rw [morgan_eval_bits]
    exact morgan_stacked_shape GetMorganFingerprintAsBitVect
      ConvertToNumpyArray df radius nbits hne hbit

/-- C4 witness: the amended shape theorem at a concrete two-row table with
4-bit toy fingerprints. -/
theorem morgan_fingerprint_shape_witness :
    ∃ out, morgan_fingerprint
        (fun (_ : Unit) (_ _ : Nat) => List.replicate 4 (0 : Nat))
        (fun _ _ _ => List.replicate 4 0) (fun a => a) dfLabels57 3 4 "bits" =
        Except.ok out ∧
      out.index = dfLabels57.index ∧ out.data.length = dfLabels57.nrows ∧
      out.cols.length = 4 :=
  morgan_fingerprint_shape _ _ _ dfLabels57 3 4 "bits" (by decide) (by decide)
    (fun _ => by simp) (fun _ => by simp)

/-- C6: for every kind other than "counts" and "bits", `morgan_fingerprint`
raises the invalid-argument `ValueError`; the error does not depend on the
table (no row is processed and nothing of the output is built). -/
theorem morgan_fingerprint_bad_kind {ρ Mol FP γ : Type}
    (GetMorganFingerprintAsBitVect GetHashedMorganFingerprint :
      Mol → Nat → Nat → FP)
    (ConvertToNumpyArray : FP → List γ) (radius nbits : Nat) (kind : String)
    (hkind : kind ∉ ["counts", "bits"]) :
    ∀ df : DataFrame (ρ × Mol),
      morgan_fingerprint GetMorganFingerprintAsBitVect
          GetHashedMorganFingerprint ConvertToNumpyArray df radius nbits kind =
        Except.error (PyError.valueError "kind must be one of [counts, bits]") := by
  intro df
  simp only [morgan_fingerprint]
  rw [if_pos hkind]

/-- C6 witness: the unrecognized kind `"hashed"` raises the
invalid-argument `ValueError` on a concrete table. -/
theorem morgan_fingerprint_bad_kind_witness :
    morgan_fingerprint (fun (_ : Unit) (_ _ : Nat) => ([] : List Nat))
        (fun _ _ _ => []) (fun a => a) dfLabels57 3 8 "hashed" =
      Except.error (PyError.valueError "kind must be one of [counts, bits]") :=
  morgan_fingerprint_bad_kind _ _ _ 3 8 "hashed" (by decide) dfLabels57

/-- C10: on a zero-row table, both `morgan_fingerprint` (either valid kind)
and `maccs_keys_fingerprint` raise the `np.vstack` empty-stack error instead
of returning an empty feature table. -/
theorem fingerprint_empty_table_raises {ρ Mol FP γ : Type}
    (GetMorganFingerprintAsBitVect GetHashedMorganFingerprint :
      Mol → Nat → Nat → FP)
    (GetMACCSKeysFingerprint : Mol → FP) (ConvertToNumpyArray : FP → List γ)
    (df : DataFrame (ρ × Mol)) (radius nbits : Nat) (kind : String)
    (hkind : kind ∈ ["counts", "bits"]) (hdf : df.rows = []) :
    morgan_fingerprint GetMorganFingerprintAsBitVect
        GetHashedMorganFingerprint ConvertToNumpyArray df radius nbits kind =
      Except.error (PyError.valueError "need at least one array to concatenate") ∧
    maccs_keys_fingerprint GetMACCSKeysFingerprint ConvertToNumpyArray df =
      Except.error (PyError.valueError "need at least one array to concatenate") := by
  have hkinds : kind = "counts" ∨ kind = "bits" := by simpa using hkind
  constructor
  · rcases hkinds with rfl | rfl
    · rw [morgan_eval_counts, hdf]
      rfl
    · rw [morgan_eval_bits, hdf]
      rfl
  · unfold maccs_keys_fingerprint
    rw [hdf]
    rfl

/-- C10 witness: both fingerprint functions raise on a concrete empty
table. -/
theorem fingerprint_empty_table_raises_witness :
    morgan_fingerprint (fun (_ : Unit) (_ _ : Nat) => ([] : List Nat))
        (fun _ _ _ => []) (fun a => a) (⟨[]⟩ : DataFrame (Unit × Unit))
        2 16 "bits" =
      Except.error (PyError.valueError "need at least one array to concatenate") ∧
    maccs_keys_fingerprint (fun (_ : Unit) => ([] : List Nat)) (fun a => a)
        (⟨[]⟩ : DataFrame (Unit × Unit)) =
      Except.error (PyError.valueError "need at least one array to concatenate") :=
  fingerprint_empty_table_raises _ _ _ _ (⟨[]⟩ : DataFrame (Unit × Unit))
    2 16 "bits" (by decide) rfl

end PyJanitorChemistry
